import Mathlib

/-!
# File transfer over TCP: sender (`client.c`) and receiver (`server.c`)

A shallow embedding of the two C programs.  The process-wide C globals
(`resources`, `file_counter`) and the receiver's working directory are explicit
state; every call into libc or the kernel is logged as an `Event`, and the
answers the environment gives (does `fopen` succeed, what does `recv` return,
...) are explicit inputs of the functions.

Conventions of the model:

* `int` and `long` are `Int`; `file_counter++` and the casts to `int` wrap at 32 bits,
  the conversion of `file_size` to `size_t` wraps at 64 bits.
* The receiver's disk is ideal: a successful `fopen(name, "wb")` leaves an empty file,
  `fwrite` appends every byte it is given, `remove` deletes the file.
* A connection is a finite script of `recv` results; when the script is used up the peer
  has closed and `recv` returns 0, so the receive loop always ends.
* The receiver's `while (1)` loop is run on a finite script of `accept` results; the run
  is then still serving.
* `fclose` on a null stream is undefined in C: the model logs the call and stops there
  (`Ending.undefined`, `Outcome.undefined`); no later statement is run.
* Signals (the `SIGINT` handlers) are not part of the model.
-/

namespace FileTransfer

/-- One octet of file or wire data. -/
abbrev Byte := Fin 256

/-- A call made by one of the two programs, with the answer it got. -/
inductive Event where
  | stdout (msg : String)
  | stderr (msg : String)
  | signal
  | access (path : String) (ok : Bool)
  | fopen (name : String) (ok : Bool)
  | malloc (size : Nat) (ok : Bool)
  | fread (requested : Nat) (got : List Byte)
  | free
  | socket (ret : Int)
  | inet_addr (ip : String) (ok : Bool)
  | connect (fd : Int) (ip : String) (port : Int) (ok : Bool)
  | send (fd : Int) (buf : List Byte) (len : Nat) (ret : Int)
  | bind (fd : Int) (port : Int) (ok : Bool)
  | listen (fd : Int) (backlog : Nat) (ok : Bool)
  | accept (ret : Int)
  | recv (ret : Int)
  | fwrite (name : String) (bytes : List Byte)
  | fclose (stream : Option String)
  | remove (name : String)
  | close (fd : Int)
  deriving DecidableEq, Repr

/-! ## libc: number parsing and formatting -/

/-- The C `int` obtained from a mathematical integer on a 32-bit two's-complement target. -/
def wrap_int (x : Int) : Int := (x + 2 ^ 31) % 2 ^ 32 - 2 ^ 31

/-- The value of `(size_t) x` for a `long` x on an LP64 target. -/
def to_size_t (x : Int) : Nat := (x % 2 ^ 64).toNat

def LONG_MAX : Int := 2 ^ 63 - 1
def LONG_MIN : Int := -(2 ^ 63)

/-- The C locale's `isspace`. -/
def isspace (c : Char) : Bool :=
  c.toNat = 32 || (9 ≤ c.toNat && c.toNat ≤ 13)

def digitVal (c : Char) : Nat := c.toNat - 48

def skip_space : List Char → List Char
  | [] => []
  | c :: cs => if isspace c then skip_space cs else c :: cs

/-- Consume the longest run of decimal digits, accumulating its value. -/
def take_digits : List Char → Nat → Nat × List Char
  | [], acc => (acc, [])
  | c :: cs, acc => if c.isDigit then take_digits cs (10 * acc + digitVal c) else (acc, c :: cs)

/-- Model of `strtol(s, &endptr, 10)`: the value and the unparsed rest (`endptr`).
Leading white space is skipped, one sign is accepted, the value saturates at
`LONG_MIN`/`LONG_MAX`; with no digit at all the result is 0 and `endptr` is `s`. -/
def strtol (s : List Char) : Int × List Char :=
  let t := skip_space s
  let neg : Bool := t.head? = some '-'
  let u := if t.head? = some '-' ∨ t.head? = some '+' then t.tail else t
  match u with
  | [] => (0, s)
  | c :: _ =>
    if c.isDigit then
      let r := take_digits u 0
      let x : Int := if neg then -(r.1 : Int) else (r.1 : Int)
      (max LONG_MIN (min LONG_MAX x), r.2)
    else (0, s)

/-- Model of `atoi(s)`, which glibc defines as `(int) strtol(s, NULL, 10)`. -/
def atoi (s : List Char) : Int := wrap_int (strtol s).1

/-- Model of `printf("%02d", n)`: decimal, zero-padded on the left to two characters
(the sign counts towards the width). -/
def fmt_02d (n : Int) : List Char :=
  if n < 0 then '-' :: Nat.toDigits 10 n.natAbs
  else
    let ds := Nat.toDigits 10 n.toNat
    List.replicate (2 - ds.length) '0' ++ ds

/-- The value denoted by a string of decimal digits. -/
def decVal (cs : List Char) : Nat := cs.foldl (fun a c => 10 * a + digitVal c) 0

/-! ## Receiver (`server.c`) -/

namespace Server

/-- The receiver's working directory: file name to content. -/
abbrev Disk := String → Option (List Byte)

def Disk.set (d : Disk) (name : String) (v : Option (List Byte)) : Disk :=
  fun n => if n = name then v else d n

/-- Appending through an open stream; data written to a missing file is lost. -/
def Disk.append (d : Disk) (name : String) (bytes : List Byte) : Disk :=
  fun n => if n = name then (d n).map (· ++ bytes) else d n

/-- The C struct `Resources`: `open_file` is `none` for `NULL`, otherwise the stream,
identified by the file it writes to. -/
structure Resources where
  server_socket : Int
  open_file : Option String
  deriving DecidableEq, Repr

structure State where
  resources : Resources
  file_counter : Int
  disk : Disk

/-- The static initialisers: `resources = { -1, NULL }`, `file_counter = 1`. -/
def State.init (disk : Disk) : State :=
  { resources := { server_socket := -1, open_file := none }, file_counter := 1, disk := disk }

/-- What one call of `recv` on the client socket returns: data (its length is the
return value, 0 meaning the peer closed) or an error (-1). -/
inductive RecvResult where
  | data (bytes : List Byte)
  | error
  deriving DecidableEq, Repr

def RecvResult.ret : RecvResult → Int
  | .data bytes => bytes.length
  | .error => -1

def RecvResult.bytes : RecvResult → List Byte
  | .data bytes => bytes
  | .error => []

/-- What the environment does during one accepted connection: whether the output file can
be created, and the successive results of `recv`.  Once these are used up the peer has
closed and `recv` returns 0. -/
structure Conn where
  fopen_ok : Bool
  recvs : List RecvResult

/-- The output file name, `sprintf(filename, "file-%02d.dat", n)`. -/
def filename (n : Int) : String := "file-" ++ String.mk (fmt_02d n) ++ ".dat"

def cleanup (st : State) : State × List Event :=
  let r1 := if st.resources.server_socket ≥ 0
    then (({ st.resources with server_socket := -1 } : Resources), [Event.close st.resources.server_socket])
    else (st.resources, [])
  let r2 := if r1.1.open_file ≠ none
    then (({ r1.1 with open_file := none } : Resources), [Event.fclose r1.1.open_file])
    else (r1.1, [])
  ({ st with resources := r2.1 }, r1.2 ++ r2.2)

/-- The loop `while ((bytes_received = recv(...)) > 0) fwrite(...)`: returns the last
value of `bytes_received`, the disk, and the calls made. -/
def recv_loop (name : String) : List RecvResult → Disk → Int × Disk × List Event
  | [], d => (0, d, [Event.recv 0])
  | r :: rest, d =>
    if r.ret > 0 then
      let out := recv_loop name rest (d.append name r.bytes)
      (out.1, out.2.1, Event.recv r.ret :: Event.fwrite name r.bytes :: out.2.2)
    else (r.ret, d, [Event.recv r.ret])

/-- How a call of `receive_file` ends: it returns, or it calls `fclose` on a null stream.
The C standard leaves that call undefined (glibc dereferences the pointer and the process
is killed by SIGSEGV), so the model stops at the call: nothing after it is run. -/
inductive Ending where
  | returned
  | undefined
  deriving DecidableEq, Repr

/-- The function `receive_file`: the state, the calls made, and how the call ends.  The
last statement `fclose(resources.open_file)` is run with the value the field has at that
point; when that is `NULL` the log ends with `fclose none` and the call does not return. -/
def receive_file (c : Conn) (st : State) : State × List Event × Ending :=
  let name := filename st.file_counter
  let st := { st with file_counter := wrap_int (st.file_counter + 1) }
  if c.fopen_ok = false then
    ({ st with resources := { st.resources with open_file := none } },
      [Event.fopen name false,
       Event.stderr ("server: ERROR: Unable to create: \"" ++ name ++ "\".\n")],
      Ending.returned)
  else
    let st := { st with resources := { st.resources with open_file := some name },
                        disk := st.disk.set name (some []) }
    let out := recv_loop name c.recvs st.disk
    let st := { st with disk := out.2.1 }
    let ev := [Event.fopen name true, Event.stdout "server: Receiving file...\n"] ++ out.2.2
    let br :=
      if out.1 < 0 then
        (({ st with resources := { st.resources with open_file := none },
                    disk := st.disk.set name none } : State),
          [Event.stderr "server: ERROR: File transfer failed.",
           Event.fclose st.resources.open_file, Event.remove name])
      else (st, [Event.stdout ("server: Saving file: \"" ++ name ++ "\".\n")])
    if br.1.resources.open_file = none then
      (br.1, ev ++ br.2 ++ [Event.fclose none], Ending.undefined)
    else
      ({ br.1 with resources := { br.1.resources with open_file := none } },
        ev ++ br.2 ++ [Event.fclose br.1.resources.open_file, Event.stdout "server: Done.\n"],
        Ending.returned)

/-- How a run ends: the process exited, it is still in the accept loop, or it ran into
the undefined `fclose` of `receive_file` and went no further. -/
inductive Outcome where
  | exit (code : Int)
  | serving
  | undefined
  deriving DecidableEq, Repr

/-- The main loop on a finite script of `accept` results: `none` is a failed accept,
`some (fd, c)` a connection on descriptor `fd` that behaves as `c`.  When `receive_file`
does not return, the rest of the script is never reached. -/
def accept_loop : List (Option (Nat × Conn)) → State → Outcome × State × List Event
  | [], st => (Outcome.serving, st, [])
  | none :: rest, st =>
    let out := accept_loop rest st
    (out.1, out.2.1, Event.accept (-1)
      :: Event.stderr "server: ERROR: Failed to accept connection." :: out.2.2)
  | some (fd, c) :: rest, st =>
    let r := receive_file c st
    if r.2.2 = Ending.undefined then
      (Outcome.undefined, r.1,
        [Event.accept fd, Event.stdout "server: Connection accepted!\n"] ++ r.2.1)
    else
      let out := accept_loop rest r.1
      (out.1, out.2.1, [Event.accept fd, Event.stdout "server: Connection accepted!\n"] ++ r.2.1
        ++ [Event.close fd, Event.stdout "server: Connection closed.\n"] ++ out.2.2)

/-- The function `error`: `perror`, `cleanup`, `exit(1)`. -/
def error (msg : String) (st : State) : Outcome × State × List Event :=
  let c := cleanup st
  (Outcome.exit 1, c.1, Event.stderr msg :: c.2)

/-- The environment of a receiver run. -/
structure World where
  socket_ret : Option Nat
  bind_ok : Bool
  listen_ok : Bool
  accepts : List (Option (Nat × Conn))

def fd_of : Option Nat → Int
  | some fd => fd
  | none => -1

/-- The part of `main` after the port check (from `signal` on). -/
def serve (listening_port : Int) (w : World) (st : State) : Outcome × State × List Event :=
  let st := { st with resources := { st.resources with server_socket := fd_of w.socket_ret } }
  let ev := [Event.signal, Event.socket (fd_of w.socket_ret)]
  if st.resources.server_socket < 0 then
    let e := error "server: ERROR: Failed to create socket." st
    (e.1, e.2.1, ev ++ e.2.2)
  else
    let ev := ev ++ [Event.bind st.resources.server_socket listening_port w.bind_ok]
    if w.bind_ok = false then
      let e := error "server: ERROR: Failed to bind socket." st
      (e.1, e.2.1, ev ++ e.2.2)
    else
      let ev := ev ++ [Event.listen st.resources.server_socket 5 w.listen_ok]
      if w.listen_ok = false then
        let e := error "server: ERROR: Failed to listen on socket." st
        (e.1, e.2.1, ev ++ e.2.2)
      else
        let ev := ev ++ [Event.stdout ("server: Awaiting TCP connections over port "
          ++ toString listening_port ++ "...\n")]
        let out := accept_loop w.accepts st
        (out.1, out.2.1, ev ++ out.2.2)

/-- The function `main` of the receiver. -/
def main (argv : List String) (w : World) (st : State) : Outcome × State × List Event :=
  if argv.length ≠ 2 then
    (Outcome.exit 1, st,
      [Event.stderr ("server: USAGE: " ++ argv.headD "" ++ " <listening_port>\n")])
  else
    let p := strtol (argv.getD 1 "").data
    if p.2 ≠ [] ∨ p.1 < 1024 ∨ p.1 > 65535 then
      (Outcome.exit 1, st, [Event.stderr "server: ERROR: Port number is privileged.\n"])
    else serve (wrap_int p.1) w st

end Server

/-! ## Sender (`client.c`) -/

namespace Client

/-- The C struct `Resources`: `file_contents` is `none` for `NULL`, otherwise the buffer,
given by the bytes stored in it so far. -/
structure Resources where
  sockfd : Int
  file_contents : Option (List Byte)
  deriving DecidableEq, Repr

/-- The static initialiser `resources = { -1, NULL }`. -/
def Resources.init : Resources := { sockfd := -1, file_contents := none }

/-- What the environment answers while one command-line path is processed. -/
structure SendWorld where
  /-- Whether `access(path, F_OK)` returns 0. -/
  access_ok : Bool
  fopen_ok : Bool
  /-- The value of `ftell` at the end of the file. -/
  file_size : Int
  malloc_ok : Bool
  /-- The bytes `fread` stores in the buffer; their number is its return value. -/
  fread_got : List Byte
  /-- The descriptor returned by `socket`, `none` for -1. -/
  socket_ret : Option Nat
  /-- Whether `inet_addr` returns something other than `INADDR_NONE`. -/
  inet_addr_ok : Bool
  connect_ok : Bool
  /-- The return value of `send`. -/
  send_ret : Int

def fd_of : Option Nat → Int
  | some fd => fd
  | none => -1

def cleanup (r : Resources) : Resources × List Event :=
  let a := if r.sockfd ≥ 0
    then (({ r with sockfd := -1 } : Resources), [Event.close r.sockfd])
    else (r, [])
  let b := if a.1.file_contents ≠ none
    then (({ a.1 with file_contents := none } : Resources), [Event.free])
    else (a.1, [])
  (b.1, a.2 ++ b.2)

/-- The function `send_file`. -/
def send_file (server_ip : String) (server_port : Int) (filename : String)
    (w : SendWorld) (r : Resources) : Resources × List Event :=
  if w.fopen_ok = false then
    (r, [Event.fopen filename false,
         Event.stderr ("client: ERROR: Unable to open file \"" ++ filename ++ "\"\n")])
  else
    let ev := [Event.fopen filename true]
    if w.file_size > 10 * 1024 * 1024 then
      (r, ev ++ [Event.fclose (some filename),
         Event.stderr ("client: ERROR: File \"" ++ filename ++ "\" exceeds 10MB limit. Skipping.\n")])
    else
      let r := { r with file_contents := if w.malloc_ok then some [] else none }
      let ev := ev ++ [Event.malloc (to_size_t w.file_size) w.malloc_ok]
      if r.file_contents = none then
        (r, ev ++ [Event.fclose (some filename),
           Event.stderr "client: ERROR: Memory allocation failed.\n"])
      else
        let r := { r with file_contents := some w.fread_got }
        let ev := ev ++ [Event.fread (to_size_t w.file_size) w.fread_got]
        if w.fread_got.length ≠ to_size_t w.file_size then
          let c := cleanup r
          (c.1, ev ++ [Event.fclose (some filename),
             Event.stderr "client: ERROR: File read error.\n"] ++ c.2)
        else
          let r := { r with sockfd := fd_of w.socket_ret }
          let ev := ev ++ [Event.fclose (some filename), Event.socket (fd_of w.socket_ret)]
          if r.sockfd < 0 then
            let c := cleanup r
            (c.1, ev ++ [Event.stderr "client: ERROR: Failed to create socket.\n"] ++ c.2)
          else
            let ev := ev ++ [Event.inet_addr server_ip w.inet_addr_ok]
            if w.inet_addr_ok = false then
              let c := cleanup r
              (c.1, ev ++ [Event.stderr "client: ERROR: Invalid server IP address.\n"] ++ c.2)
            else
              let ev := ev ++ [Event.stdout ("client: Connecting to " ++ server_ip ++ ":"
                  ++ toString server_port ++ "...\n"),
                Event.connect r.sockfd server_ip server_port w.connect_ok]
              if w.connect_ok = false then
                let c := cleanup r
                (c.1, ev ++ [Event.stderr "client: ERROR: Connection failed.\n"] ++ c.2)
              else
                let ev := ev ++ [Event.stdout "client: Success!\n",
                  Event.stdout ("client: Sending: \"" ++ filename ++ "\"...\n"),
                  Event.send r.sockfd (r.file_contents.getD []) (to_size_t w.file_size) w.send_ret]
                let ev := ev ++
                  (if w.send_ret < 0 then [Event.stderr "client: ERROR: Send failed.\n"]
                   else [Event.stdout "client: Done.\n"])
                let c := cleanup r
                (c.1, ev ++ c.2)

/-- The loop of `main` over `argv[i]`, `i = 3 .. argc - 1`; `w i` is the environment while
`argv[i]` is processed. -/
def send_loop (server_ip : String) (server_port : Int) (w : Nat → SendWorld) :
    Nat → List String → Resources → Resources × List Event
  | _, [], r => (r, [])
  | i, f :: rest, r =>
    if (w i).access_ok = false then
      let out := send_loop server_ip server_port w (i + 1) rest r
      (out.1, [Event.access f false,
        Event.stderr ("client: ERROR: File \"" ++ f ++ "\" does not exist. Skipping.\n")] ++ out.2)
    else
      let s := send_file server_ip server_port f (w i) r
      let out := send_loop server_ip server_port w (i + 1) rest s.1
      (out.1, [Event.access f true] ++ s.2 ++ out.2)

/-- The part of `main` after the port check: the loop over the paths, the closing
messages, `cleanup`, `return 0`. -/
def transfer_files (server_ip : String) (server_port : Int) (argv : List String)
    (w : Nat → SendWorld) (r : Resources) : Int × Resources × List Event :=
  let out := send_loop server_ip server_port w 3 (argv.drop 3) r
  let c := cleanup out.1
  (0, c.1, [Event.signal] ++ out.2 ++ [Event.stdout "client: File transfer(s) complete.\n",
    Event.stdout "client: Goodbye!\n"] ++ c.2)

/-- The function `main` of the sender: exit code, final record, calls made. -/
def main (argv : List String) (w : Nat → SendWorld) (r : Resources) :
    Int × Resources × List Event :=
  if argv.length < 4 then
    (1, r, [Event.stderr ("client: USAGE: " ++ argv.headD ""
      ++ " <server_IP> <server_Port> file1 file2 ...\n")])
  else
    let server_ip := argv.getD 1 ""
    let server_port := atoi (argv.getD 2 "").data
    if server_port < 1024 ∨ server_port > 65535 then
      (1, r, [Event.signal, Event.stderr "client: ERROR: Port number is privileged.\n"])
    else transfer_files server_ip server_port argv w r

end Client

/-! ## Reading the event log -/

/-- The bytes the transport accepted: for each `send`, the prefix of the buffer whose
length is the call's return value. -/
def wire : List Event → List Byte
  | [] => []
  | Event.send _ buf _ ret :: rest => buf.take ret.toNat ++ wire rest
  | _ :: rest => wire rest

/-- The names passed to `fopen`, in call order. -/
def fopenNames : List Event → List String
  | [] => []
  | Event.fopen name _ :: rest => name :: fopenNames rest
  | _ :: rest => fopenNames rest

/-- Is the event a successful `accept`? -/
def isAccepted : Event → Bool
  | Event.accept ret => decide (0 ≤ ret)
  | _ => false

/-- Is the event one of the socket operations `socket`, `bind`, `listen`, `connect`? -/
def isSocketOp : Event → Bool
  | Event.socket _ => true
  | Event.bind _ _ _ => true
  | Event.listen _ _ _ => true
  | Event.connect _ _ _ _ => true
  | _ => false

/-- Is the event a successful `malloc`? -/
def isAlloc : Event → Bool
  | Event.malloc _ ok => ok
  | _ => false

/-- Is the event a `socket` call that returned a descriptor? -/
def isSocketOpened : Event → Bool
  | Event.socket ret => decide (0 ≤ ret)
  | _ => false

/-- Is the event a `close` of a descriptor? -/
def isClose : Event → Bool
  | Event.close _ => true
  | _ => false

/-- The calls `main` of the sender makes for one command-line path `p.2` at index `p.1`,
started with the empty record: the `access` test, then the warning or the whole of
`send_file`. -/
def path_log (server_ip : String) (server_port : Int) (w : Nat → Client.SendWorld)
    (p : Nat × String) : List Event :=
  if (w p.1).access_ok = false then
    [Event.access p.2 false,
     Event.stderr ("client: ERROR: File \"" ++ p.2 ++ "\" does not exist. Skipping.\n")]
  else
    Event.access p.2 true
      :: (Client.send_file server_ip server_port p.2 (w p.1) Client.Resources.init).2

/-! ## Lemmas on decimal formatting -/

theorem digitVal_digitChar (d : Nat) (h : d < 10) : digitVal (Nat.digitChar d) = d := by
  interval_cases d <;> rfl

theorem foldl_toDigitsCore (fuel : Nat) : ∀ (n : Nat) (acc : List Char), n < fuel →
    (Nat.toDigitsCore 10 fuel n acc).foldl (fun a c => 10 * a + digitVal c) 0
      = acc.foldl (fun a c => 10 * a + digitVal c) n := by
  induction fuel with
  | zero => intro n acc h; omega
  | succ f ih =>
    intro n acc h
    have hd : digitVal (Nat.digitChar (n % 10)) = n % 10 :=
      digitVal_digitChar _ (Nat.mod_lt _ (by decide))
    simp only [Nat.toDigitsCore]
    split
    · rename_i h0
      simp only [List.foldl_cons, hd]
      congr 1
      omega
    · rename_i h0
      rw [ih (n / 10) _ (by omega)]
      simp only [List.foldl_cons, hd]
      congr 1
      omega

theorem decVal_toDigits (n : Nat) : decVal (Nat.toDigits 10 n) = n := by
  unfold decVal Nat.toDigits
  rw [foldl_toDigitsCore (n + 1) n [] (by omega)]
  rfl

theorem decVal_replicate_zero (k : Nat) (ds : List Char) :
    decVal (List.replicate k '0' ++ ds) = decVal ds := by
  unfold decVal
  induction k with
  | zero => rfl
  | succ k ih =>
    rw [List.replicate_succ, List.cons_append, List.foldl_cons]
    exact ih

theorem decVal_fmt_02d (n : Int) (h : 0 ≤ n) : decVal (fmt_02d n) = n.toNat := by
  unfold fmt_02d
  rw [if_neg (by omega)]
  simp only [decVal_replicate_zero, decVal_toDigits]

theorem toDigitsCore_length_pos (f n : Nat) (acc : List Char) (h : 0 < f) :
    1 ≤ (Nat.toDigitsCore 10 f n acc).length := by
  obtain ⟨g, rfl⟩ : ∃ g, f = g + 1 := ⟨f - 1, by omega⟩
  simp only [Nat.toDigitsCore]
  split
  · simp
  · rw [Nat.toDigitsCore_lens_eq]; omega

theorem toDigits_length_small (n : Nat) (h : n < 10) : (Nat.toDigits 10 n).length = 1 := by
  interval_cases n <;> rfl

theorem toDigits_length_large (n : Nat) (h : 10 ≤ n) : 2 ≤ (Nat.toDigits 10 n).length := by
  unfold Nat.toDigits
  simp only [Nat.toDigitsCore]
  rw [if_neg (by omega), Nat.toDigitsCore_lens_eq]
  have := toDigitsCore_length_pos n (n / 10) [] (by omega)
  omega

theorem fmt_02d_of_nat (k : Nat) :
    fmt_02d (k : Int) = (if k < 10 then ['0'] else []) ++ Nat.toDigits 10 k := by
  unfold fmt_02d
  rw [if_neg (by omega)]
  simp only [Int.toNat_ofNat]
  by_cases h : k < 10
  · rw [toDigits_length_small k h, if_pos h]; rfl
  · rw [if_neg h]
    have := toDigits_length_large k (by omega)
    rw [Nat.sub_eq_zero_of_le this]; rfl

theorem filename_inj_fmt (j k : Int) (h : Server.filename j = Server.filename k) :
    fmt_02d j = fmt_02d k := by
  have h2 := congrArg String.data h
  simp only [Server.filename, String.data_append] at h2
  exact List.append_cancel_left (List.append_cancel_right h2)

/-- C9. The output file name for sequence number `k` is `file-`, then `k` in decimal
zero-padded to at least two digits, then `.dat` (1 gives `file-01.dat`), and two different
positive sequence numbers, of any number of digits, give different names. -/
theorem filename_format_injective (j k : Int) (hj : 0 < j) (hk : 0 < k) (hjk : j ≠ k) :
    Server.filename j ≠ Server.filename k
    ∧ Server.filename 1 = "file-01.dat"
    ∧ (∀ n : Nat, Server.filename (n : Int)
        = "file-" ++ (if n < 10 then "0" else "") ++ Nat.repr n ++ ".dat") := by
  refine ⟨?_, by decide, ?_⟩
  · intro h
    have h1 := congrArg decVal (filename_inj_fmt j k h)
    rw [decVal_fmt_02d j (by omega), decVal_fmt_02d k (by omega)] at h1
    omega
  · intro n
    unfold Server.filename
    rw [fmt_02d_of_nat]
    apply String.ext
    by_cases h : n < 10 <;> simp [h, Nat.repr, String.data_append, List.asString]

theorem filename_format_injective_witness :
    Server.filename 7 ≠ Server.filename 123 :=
  (filename_format_injective 7 123 (by decide) (by decide) (by decide)).1

/-! ## Lemmas on the receive loop -/

theorem foldl_append_apply (name : String) : ∀ (chunks : List (List Byte)) (d : Server.Disk) (n : String),
    (chunks.foldl (fun d c => Server.Disk.append d name c) d) n
      = if n = name then (d n).map (· ++ chunks.flatten) else d n := by
  intro chunks
  induction chunks with
  | nil => intro d n; cases h : d n <;> simp [h]
  | cons c cs ih =>
    intro d n
    rw [List.foldl_cons, ih]
    by_cases hn : n = name
    · simp only [hn, if_true, Server.Disk.append, List.flatten_cons]
      cases d name <;> simp
    · simp [hn, Server.Disk.append]

theorem recv_loop_chunks (name : String) (tail : List Server.RecvResult) :
    ∀ (chunks : List (List Byte)) (d : Server.Disk), (∀ c ∈ chunks, 1 ≤ c.length) →
    Server.recv_loop name (chunks.map Server.RecvResult.data ++ tail) d
      = ((Server.recv_loop name tail (chunks.foldl (fun d c => Server.Disk.append d name c) d)).1,
         (Server.recv_loop name tail (chunks.foldl (fun d c => Server.Disk.append d name c) d)).2.1,
         chunks.flatMap (fun c => [Event.recv c.length, Event.fwrite name c])
           ++ (Server.recv_loop name tail
                (chunks.foldl (fun d c => Server.Disk.append d name c) d)).2.2) := by
  intro chunks
  induction chunks with
  | nil => intro d _; rfl
  | cons c cs ih =>
    intro d h
    have hc : (0 : Int) < (c.length : Int) := by
      have := (h c (List.mem_cons_self _ _)); omega
    have hcs : ∀ x ∈ cs, 1 ≤ x.length := fun x hx => h x (List.mem_cons_of_mem _ hx)
    show Server.recv_loop name (Server.RecvResult.data c
      :: (cs.map Server.RecvResult.data ++ tail)) d = _
    rw [Server.recv_loop, if_pos (by simpa [Server.RecvResult.ret] using hc), ih _ hcs]
    rfl

theorem to_size_t_length (n : Nat) (h : n < 10 * 1024 * 1024) : to_size_t (n : Int) = n := by
  unfold to_size_t
  rw [Int.emod_eq_of_lt (by omega) (by omega)]
  rfl

theorem wire_send_file_ok (ip name : String) (port : Int) (w : Client.SendWorld)
    (r : Client.Resources) (fd : Nat)
    (hopen : w.fopen_ok = true) (hsize : w.file_size = (w.fread_got.length : Int))
    (hlim : w.fread_got.length < 10 * 1024 * 1024) (hmalloc : w.malloc_ok = true)
    (hsock : w.socket_ret = some fd) (haddr : w.inet_addr_ok = true)
    (hconn : w.connect_ok = true) (hsend : w.send_ret = w.file_size) :
    wire (Client.send_file ip port name w r).2 = w.fread_got := by
  have h1 : ¬ ((w.fread_got.length : Int) > 10 * 1024 * 1024) := by omega
  have h2 : ¬ ((fd : Int) < 0) := by omega
  have h3 : ¬ ((w.fread_got.length : Int) < 0) := by omega
  simp only [Client.send_file, hopen, hsize, hmalloc, hsock, haddr, hconn, hsend, h1, h2, h3,
    to_size_t_length _ hlim, Client.fd_of, Client.cleanup, if_true, if_false, ne_eq,
    not_true_eq_false, Bool.true_eq_false, reduceCtorEq, not_false_eq_true, ge_iff_le,
    Option.getD_some, List.cons_append, List.nil_append, List.append_assoc, wire,
    Int.toNat_ofNat, List.take_length, List.append_nil]

/-- C1. Round trip on the receiver: when the output file is created and `recv` returns
chunks of 1..1024 bytes and then 0, the output file exists and holds the chunks
concatenated in arrival order; hence when a source file under the 10 MiB ceiling is read
and sent in full and the bytes on the wire arrive in those chunks, the output file equals
the source; and when the first `recv` returns 0 the output file exists and is empty.  On
this path the call returns. -/
theorem receive_file_round_trip (st : Server.State) (chunks : List (List Byte))
    (hsz : ∀ c ∈ chunks, 1 ≤ c.length ∧ c.length ≤ 1024) :
    (Server.receive_file ⟨true, chunks.map Server.RecvResult.data ++ [Server.RecvResult.data []]⟩
        st).1.disk (Server.filename st.file_counter) = some chunks.flatten
    ∧ (∀ (ip name : String) (port : Int) (w : Client.SendWorld) (r : Client.Resources)
        (fd : Nat), w.fopen_ok = true → w.file_size = (w.fread_got.length : Int) →
        w.fread_got.length < 10 * 1024 * 1024 → w.malloc_ok = true →
        w.socket_ret = some fd → w.inet_addr_ok = true → w.connect_ok = true →
        w.send_ret = w.file_size →
        chunks.flatten = wire (Client.send_file ip port name w r).2 →
        (Server.receive_file
          ⟨true, chunks.map Server.RecvResult.data ++ [Server.RecvResult.data []]⟩
          st).1.disk (Server.filename st.file_counter) = some w.fread_got)
    ∧ (Server.receive_file ⟨true, [Server.RecvResult.data []]⟩ st).1.disk
        (Server.filename st.file_counter) = some []
    ∧ (Server.receive_file
        ⟨true, chunks.map Server.RecvResult.data ++ [Server.RecvResult.data []]⟩ st).2.2
      = Server.Ending.returned := by
  have key : (Server.receive_file
      ⟨true, chunks.map Server.RecvResult.data ++ [Server.RecvResult.data []]⟩
      st).1.disk (Server.filename st.file_counter) = some chunks.flatten := by
    simp [Server.receive_file, recv_loop_chunks _ _ chunks _ (fun c hc => (hsz c hc).1),
      Server.recv_loop, Server.RecvResult.ret, foldl_append_apply, Server.Disk.set]
  refine ⟨key, ?_, ?_, ?_⟩
  · intro ip name port w r fd h1 h2 h3 h4 h5 h6 h7 h8 hw
    rw [key, hw, wire_send_file_ok ip name port w r fd h1 h2 h3 h4 h5 h6 h7 h8]
  · simp [Server.receive_file, Server.recv_loop, Server.RecvResult.ret, Server.Disk.set]
  · simp [Server.receive_file, recv_loop_chunks _ _ chunks _ (fun c hc => (hsz c hc).1),
      Server.recv_loop, Server.RecvResult.ret]

theorem receive_file_round_trip_witness :
    (Server.receive_file ⟨true, [Server.RecvResult.data [1, 2], Server.RecvResult.data [3],
        Server.RecvResult.data []]⟩ (Server.State.init (fun _ => none))).1.disk "file-01.dat"
      = some [1, 2, 3]
    ∧ (Server.receive_file ⟨true, [Server.RecvResult.data [1, 2], Server.RecvResult.data [3],
        Server.RecvResult.data []]⟩ (Server.State.init (fun _ => none))).1.disk "file-01.dat"
      = some (Client.SendWorld.mk true true 3 true [1, 2, 3] (some 5) true true 3).fread_got
    ∧ (Server.receive_file ⟨true, [Server.RecvResult.data []]⟩
        (Server.State.init (fun _ => none))).1.disk "file-01.dat" = some []
    ∧ (Server.receive_file ⟨true, [Server.RecvResult.data [1, 2], Server.RecvResult.data [3],
        Server.RecvResult.data []]⟩ (Server.State.init (fun _ => none))).2.2
      = Server.Ending.returned :=
  ⟨(receive_file_round_trip (Server.State.init (fun _ => none)) [[1, 2], [3]] (by decide)).1,
   (receive_file_round_trip (Server.State.init (fun _ => none)) [[1, 2], [3]]
      (by decide)).2.1 "127.0.0.1" "a.txt" 8080
      (Client.SendWorld.mk true true 3 true [1, 2, 3] (some 5) true true 3)
      Client.Resources.init 5 rfl rfl (by decide) rfl rfl rfl rfl rfl (by decide),
   (receive_file_round_trip (Server.State.init (fun _ => none)) [[1, 2], [3]]
      (by decide)).2.2.1,
   (receive_file_round_trip (Server.State.init (fun _ => none)) [[1, 2], [3]]
      (by decide)).2.2.2⟩

/-! ## The paths through `receive_file` -/

theorem receive_file_create_failure (rs : List Server.RecvResult) (st : Server.State) :
    Server.receive_file ⟨false, rs⟩ st
      = ({ resources := { st.resources with open_file := none },
           file_counter := wrap_int (st.file_counter + 1), disk := st.disk },
         [Event.fopen (Server.filename st.file_counter) false,
          Event.stderr ("server: ERROR: Unable to create: \""
            ++ Server.filename st.file_counter ++ "\".\n")],
         Server.Ending.returned) := by
  simp [Server.receive_file]

theorem receive_file_read_error (rs : List Server.RecvResult) (st : Server.State)
    (h : (Server.recv_loop (Server.filename st.file_counter) rs
      (st.disk.set (Server.filename st.file_counter) (some []))).1 < 0) :
    Server.receive_file ⟨true, rs⟩ st
      = ({ resources := { st.resources with open_file := none },
           file_counter := wrap_int (st.file_counter + 1),
           disk := (Server.recv_loop (Server.filename st.file_counter) rs
             (st.disk.set (Server.filename st.file_counter) (some []))).2.1.set
               (Server.filename st.file_counter) none },
         [Event.fopen (Server.filename st.file_counter) true,
          Event.stdout "server: Receiving file...\n"]
          ++ (Server.recv_loop (Server.filename st.file_counter) rs
             (st.disk.set (Server.filename st.file_counter) (some []))).2.2
          ++ [Event.stderr "server: ERROR: File transfer failed.",
              Event.fclose (some (Server.filename st.file_counter)),
              Event.remove (Server.filename st.file_counter), Event.fclose none],
         Server.Ending.undefined) := by
  simp [Server.receive_file, h]

theorem receive_file_end_of_stream (rs : List Server.RecvResult) (st : Server.State)
    (h : ¬ (Server.recv_loop (Server.filename st.file_counter) rs
      (st.disk.set (Server.filename st.file_counter) (some []))).1 < 0) :
    Server.receive_file ⟨true, rs⟩ st
      = ({ resources := { st.resources with open_file := none },
           file_counter := wrap_int (st.file_counter + 1),
           disk := (Server.recv_loop (Server.filename st.file_counter) rs
             (st.disk.set (Server.filename st.file_counter) (some []))).2.1 },
         [Event.fopen (Server.filename st.file_counter) true,
          Event.stdout "server: Receiving file...\n"]
          ++ (Server.recv_loop (Server.filename st.file_counter) rs
             (st.disk.set (Server.filename st.file_counter) (some []))).2.2
          ++ [Event.stdout ("server: Saving file: \"" ++ Server.filename st.file_counter
                ++ "\".\n"),
              Event.fclose (some (Server.filename st.file_counter)),
              Event.stdout "server: Done.\n"],
         Server.Ending.returned) := by
  simp [Server.receive_file, h]

/-- C4. When the output file is created and the read loop ends with a negative `recv`
result after any number of written chunks, no file of that sequence number is left: the
partial file is closed and then removed, and no later call creates it again.  The call
does not return on this path: after `remove` its last call is `fclose` on the field it
has just set to `NULL`, and the run goes no further, whatever connections would follow. -/
theorem receive_file_error_leaves_no_file (st : Server.State) (chunks : List (List Byte))
    (rest : List Server.RecvResult) (hsz : ∀ c ∈ chunks, 1 ≤ c.length) :
    (Server.receive_file
        ⟨true, chunks.map Server.RecvResult.data ++ Server.RecvResult.error :: rest⟩
        st).1.disk (Server.filename st.file_counter) = none
    ∧ (Server.receive_file
        ⟨true, chunks.map Server.RecvResult.data ++ Server.RecvResult.error :: rest⟩ st).2.1
      = [Event.fopen (Server.filename st.file_counter) true,
         Event.stdout "server: Receiving file...\n"]
        ++ chunks.flatMap (fun c => [Event.recv c.length,
            Event.fwrite (Server.filename st.file_counter) c])
        ++ [Event.recv (-1), Event.stderr "server: ERROR: File transfer failed.",
            Event.fclose (some (Server.filename st.file_counter)),
            Event.remove (Server.filename st.file_counter),
            Event.fclose none]
    ∧ (Server.receive_file
        ⟨true, chunks.map Server.RecvResult.data ++ Server.RecvResult.error :: rest⟩ st).2.2
      = Server.Ending.undefined
    ∧ (∀ (fd : Nat) (more : List (Option (Nat × Server.Conn))),
        Server.accept_loop (some (fd,
          ⟨true, chunks.map Server.RecvResult.data ++ Server.RecvResult.error :: rest⟩)
            :: more) st
        = (Server.Outcome.undefined,
           (Server.receive_file
             ⟨true, chunks.map Server.RecvResult.data ++ Server.RecvResult.error :: rest⟩
             st).1,
           [Event.accept fd, Event.stdout "server: Connection accepted!\n"]
            ++ (Server.receive_file
             ⟨true, chunks.map Server.RecvResult.data ++ Server.RecvResult.error :: rest⟩
             st).2.1)) := by
  have hneg : (Server.recv_loop (Server.filename st.file_counter)
      (chunks.map Server.RecvResult.data ++ Server.RecvResult.error :: rest)
      (st.disk.set (Server.filename st.file_counter) (some []))).1 < 0 := by
    simp [recv_loop_chunks _ _ chunks _ hsz, Server.recv_loop, Server.RecvResult.ret]
  have hrf := receive_file_read_error _ st hneg
  refine ⟨?_, ?_, ?_, ?_⟩
  · rw [hrf]; simp [Server.Disk.set]
  · rw [hrf]
    simp [recv_loop_chunks _ _ chunks _ hsz, Server.recv_loop, Server.RecvResult.ret]
  · rw [hrf]
  · intro fd more
    rw [Server.accept_loop, if_pos (by rw [hrf])]

theorem receive_file_error_leaves_no_file_witness :
    (Server.receive_file ⟨true, [Server.RecvResult.data [1, 2], Server.RecvResult.error]⟩
        (Server.State.init (fun n => if n = "file-01.dat" then some [9] else none))).1.disk
      "file-01.dat" = none
    ∧ (Server.receive_file ⟨true, [Server.RecvResult.data [1, 2], Server.RecvResult.error]⟩
        (Server.State.init (fun n => if n = "file-01.dat" then some [9] else none))).2.1
      = [Event.fopen "file-01.dat" true, Event.stdout "server: Receiving file...\n",
         Event.recv 2, Event.fwrite "file-01.dat" [1, 2],
         Event.recv (-1), Event.stderr "server: ERROR: File transfer failed.",
         Event.fclose (some "file-01.dat"), Event.remove "file-01.dat", Event.fclose none] :=
  ⟨(receive_file_error_leaves_no_file
      (Server.State.init (fun n => if n = "file-01.dat" then some [9] else none))
      [[1, 2]] [] (by decide)).1,
   (receive_file_error_leaves_no_file
      (Server.State.init (fun n => if n = "file-01.dat" then some [9] else none))
      [[1, 2]] [] (by decide)).2.1⟩

/-- C8 (failing path). With the output file created and the first `recv` failing,
`receive_file` closes the stream, sets the field to `NULL`, removes the file and then
calls `fclose` once more, on the `NULL` field; the call is undefined and the function
does not return. -/
theorem receive_file_read_error_closes_null :
    (Server.receive_file ⟨true, [Server.RecvResult.error]⟩
        (Server.State.init (fun _ => none))).2.1
      = [Event.fopen "file-01.dat" true, Event.stdout "server: Receiving file...\n",
         Event.recv (-1), Event.stderr "server: ERROR: File transfer failed.",
         Event.fclose (some "file-01.dat"), Event.remove "file-01.dat",
         Event.fclose none]
    ∧ (Server.receive_file ⟨true, [Server.RecvResult.error]⟩
        (Server.State.init (fun _ => none))).2.2 = Server.Ending.undefined := by
  decide

/-! ## Lemmas on the accept loop -/

theorem fopenNames_append (a b : List Event) :
    fopenNames (a ++ b) = fopenNames a ++ fopenNames b := by
  induction a with
  | nil => rfl
  | cons e a ih => cases e <;> simp [fopenNames, ih]

theorem fopenNames_recv_loop (name : String) : ∀ (rs : List Server.RecvResult) (d : Server.Disk),
    fopenNames (Server.recv_loop name rs d).2.2 = [] := by
  intro rs
  induction rs with
  | nil => intro d; rfl
  | cons r rs ih =>
    intro d
    rw [Server.recv_loop]
    split
    · simp [fopenNames, ih]
    · rfl

theorem countP_isAccepted_recv_loop (name : String) :
    ∀ (rs : List Server.RecvResult) (d : Server.Disk),
    (Server.recv_loop name rs d).2.2.countP isAccepted = 0 := by
  intro rs
  induction rs with
  | nil => intro d; rfl
  | cons r rs ih =>
    intro d
    rw [Server.recv_loop]
    split
    · simp [isAccepted, ih]
    · rfl

theorem fopenNames_receive_file (c : Server.Conn) (st : Server.State) :
    fopenNames (Server.receive_file c st).2.1 = [Server.filename st.file_counter] := by
  obtain ⟨ok, rs⟩ := c
  cases ok
  · rw [receive_file_create_failure]; rfl
  · by_cases hneg : (Server.recv_loop (Server.filename st.file_counter) rs
        (st.disk.set (Server.filename st.file_counter) (some []))).1 < 0
    · rw [receive_file_read_error rs st hneg]
      simp [fopenNames_append, fopenNames_recv_loop, fopenNames]
    · rw [receive_file_end_of_stream rs st hneg]
      simp [fopenNames_append, fopenNames_recv_loop, fopenNames]

theorem countP_isAccepted_receive_file (c : Server.Conn) (st : Server.State) :
    (Server.receive_file c st).2.1.countP isAccepted = 0 := by
  obtain ⟨ok, rs⟩ := c
  cases ok
  · rw [receive_file_create_failure]; rfl
  · by_cases hneg : (Server.recv_loop (Server.filename st.file_counter) rs
        (st.disk.set (Server.filename st.file_counter) (some []))).1 < 0
    · rw [receive_file_read_error rs st hneg]
      simp only [List.countP_append, countP_isAccepted_recv_loop]
      rfl
    · rw [receive_file_end_of_stream rs st hneg]
      simp only [List.countP_append, countP_isAccepted_recv_loop]
      rfl

theorem file_counter_receive_file (c : Server.Conn) (st : Server.State) :
    (Server.receive_file c st).1.file_counter = wrap_int (st.file_counter + 1) := by
  obtain ⟨ok, rs⟩ := c
  cases ok
  · rw [receive_file_create_failure]
  · by_cases hneg : (Server.recv_loop (Server.filename st.file_counter) rs
        (st.disk.set (Server.filename st.file_counter) (some []))).1 < 0
    · rw [receive_file_read_error rs st hneg]
    · rw [receive_file_end_of_stream rs st hneg]

theorem wrap_int_of_range (x : Int) (h1 : -(2 ^ 31) ≤ x) (h2 : x < 2 ^ 31) : wrap_int x = x := by
  unfold wrap_int
  rw [Int.emod_eq_of_lt (by omega) (by omega)]
  omega

theorem wrap_int_range (x : Int) : -(2 ^ 31) ≤ wrap_int x ∧ wrap_int x < 2 ^ 31 := by
  unfold wrap_int
  have h1 := Int.emod_nonneg (x + 2 ^ 31) (show (2 ^ 32 : Int) ≠ 0 by norm_num)
  have h2 := Int.emod_lt_of_pos (x + 2 ^ 31) (show (0 : Int) < 2 ^ 32 by norm_num)
  omega

theorem accept_loop_stops (fd : Nat) (c : Server.Conn)
    (rest : List (Option (Nat × Server.Conn))) (st : Server.State)
    (h : (Server.receive_file c st).2.2 = Server.Ending.undefined) :
    Server.accept_loop (some (fd, c) :: rest) st
      = (Server.Outcome.undefined, (Server.receive_file c st).1,
         [Event.accept fd, Event.stdout "server: Connection accepted!\n"]
          ++ (Server.receive_file c st).2.1) := by
  rw [Server.accept_loop, if_pos h]

theorem accept_loop_goes_on (fd : Nat) (c : Server.Conn)
    (rest : List (Option (Nat × Server.Conn))) (st : Server.State)
    (h : ¬ (Server.receive_file c st).2.2 = Server.Ending.undefined) :
    Server.accept_loop (some (fd, c) :: rest) st
      = ((Server.accept_loop rest (Server.receive_file c st).1).1,
         (Server.accept_loop rest (Server.receive_file c st).1).2.1,
         [Event.accept fd, Event.stdout "server: Connection accepted!\n"]
          ++ (Server.receive_file c st).2.1
          ++ [Event.close fd, Event.stdout "server: Connection closed.\n"]
          ++ (Server.accept_loop rest (Server.receive_file c st).1).2.2) := by
  rw [Server.accept_loop, if_neg h]

theorem accept_loop_sequence : ∀ (accepts : List (Option (Nat × Server.Conn))) (st : Server.State),
    -(2 ^ 31) ≤ st.file_counter → st.file_counter < 2 ^ 31 →
    st.file_counter + ((Server.accept_loop accepts st).2.2.countP isAccepted : Nat) ≤ 2 ^ 31 →
    fopenNames (Server.accept_loop accepts st).2.2
        = (List.range ((Server.accept_loop accepts st).2.2.countP isAccepted)).map
            (fun (k : Nat) => Server.filename (st.file_counter + (k : Int)))
    ∧ (Server.accept_loop accepts st).2.1.file_counter
        = wrap_int (st.file_counter
            + ((Server.accept_loop accepts st).2.2.countP isAccepted : Nat)) := by
  intro accepts
  induction accepts with
  | nil =>
    intro st h1 h3 _
    simp [Server.accept_loop, fopenNames, wrap_int_of_range _ h1 h3]
  | cons a rest ih =>
    intro st h1 h3 h2
    cases a with
    | none =>
      have hlog : (Server.accept_loop (none :: rest) st).2.2.countP isAccepted
          = (Server.accept_loop rest st).2.2.countP isAccepted := by
        simp [Server.accept_loop, isAccepted]
      rw [hlog] at h2 ⊢
      obtain ⟨i1, i2⟩ := ih st h1 h3 h2
      refine ⟨?_, ?_⟩
      · rw [← i1]; simp [Server.accept_loop, fopenNames]
      · rw [← i2]; simp [Server.accept_loop]
    | some p =>
      obtain ⟨fd, c⟩ := p
      have hc := file_counter_receive_file c st
      by_cases hu : (Server.receive_file c st).2.2 = Server.Ending.undefined
      · rw [accept_loop_stops fd c rest st hu]
        have hcnt : ([Event.accept (fd : Int), Event.stdout "server: Connection accepted!\n"]
            ++ (Server.receive_file c st).2.1).countP isAccepted = 1 := by
          simp [List.countP_append, countP_isAccepted_receive_file, isAccepted]
        simp only [hcnt, fopenNames_append, fopenNames_receive_file, hc]
        simp [fopenNames, List.range_succ]
      · rw [accept_loop_goes_on fd c rest st hu] at h2 ⊢
        have hcnt : ([Event.accept (fd : Int), Event.stdout "server: Connection accepted!\n"]
            ++ (Server.receive_file c st).2.1
            ++ [Event.close fd, Event.stdout "server: Connection closed.\n"]
            ++ (Server.accept_loop rest (Server.receive_file c st).1).2.2).countP isAccepted
            = (Server.accept_loop rest (Server.receive_file c st).1).2.2.countP isAccepted
              + 1 := by
          simp [List.countP_append, countP_isAccepted_receive_file, isAccepted]
        have hnm : fopenNames ([Event.accept (fd : Int),
              Event.stdout "server: Connection accepted!\n"]
            ++ (Server.receive_file c st).2.1
            ++ [Event.close fd, Event.stdout "server: Connection closed.\n"]
            ++ (Server.accept_loop rest (Server.receive_file c st).1).2.2)
            = Server.filename st.file_counter
              :: fopenNames (Server.accept_loop rest (Server.receive_file c st).1).2.2 := by
          simp only [fopenNames_append, fopenNames_receive_file]
          rfl
        simp only [hcnt, hnm, Nat.cast_add, Nat.cast_one] at h2 ⊢
        by_cases hlast : st.file_counter + 1 < 2 ^ 31
        · rw [wrap_int_of_range _ (by omega) hlast] at hc
          obtain ⟨i1, i2⟩ := ih (Server.receive_file c st).1 (by omega) (by omega) (by omega)
          refine ⟨?_, ?_⟩
          · rw [i1, hc, List.range_succ_eq_map, List.map_cons, List.map_map]
            simp only [Nat.cast_zero, add_zero, List.cons.injEq, true_and]
            apply List.map_congr_left
            intro k _
            simp only [Function.comp, Nat.cast_succ]
            congr 1
            ring
          · rw [i2, hc]
            congr 1
            ring
        · have hr : (Server.accept_loop rest (Server.receive_file c st).1).2.2.countP
              isAccepted = 0 := by omega
          have hw := wrap_int_range (st.file_counter + 1)
          obtain ⟨i1, i2⟩ := ih (Server.receive_file c st).1 (by omega) (by omega) (by omega)
          rw [hr] at i1 i2 ⊢
          refine ⟨?_, ?_⟩
          · rw [i1]; simp [List.range_succ]
          · rw [i2, hc]
            simp only [Nat.cast_zero, add_zero, zero_add]
            rw [wrap_int_of_range _ hw.1 hw.2]

theorem serve_sequence (port : Int) (w : Server.World) (st : Server.State)
    (hst : st.file_counter = 1)
    (hN : (Server.serve port w st).2.2.countP isAccepted < 2 ^ 31) :
    fopenNames (Server.serve port w st).2.2
      = (List.range ((Server.serve port w st).2.2.countP isAccepted)).map
          (fun (k : Nat) => Server.filename ((k : Int) + 1))
    ∧ (Server.serve port w st).2.1.file_counter
      = wrap_int ((((Server.serve port w st).2.2.countP isAccepted : Nat) : Int) + 1) := by
  obtain ⟨sock, bind_ok, listen_ok, accepts⟩ := w
  obtain ⟨res, fc, d⟩ := st
  dsimp only at hst
  subst hst
  have hst : (Server.State.mk res 1 d).file_counter = 1 := rfl
  cases sock with
  | none =>
    simp [Server.serve, Server.fd_of, Server.error, Server.cleanup, fopenNames, isAccepted, hst]
    split <;> simp [fopenNames, isAccepted, wrap_int]
  | some fd =>
    have hfd : ¬ ((fd : Int) < 0) := by omega
    cases bind_ok
    · simp [Server.serve, Server.fd_of, Server.error, Server.cleanup, fopenNames, isAccepted,
        hst, hfd]
      split <;> simp [fopenNames, isAccepted, wrap_int]
    · cases listen_ok
      · simp [Server.serve, Server.fd_of, Server.error, Server.cleanup, fopenNames, isAccepted,
          hst, hfd]
        split <;> simp [fopenNames, isAccepted, wrap_int]
      · have hev : (Server.serve port ⟨some fd, true, true, accepts⟩ ⟨res, 1, d⟩)
            = ((Server.accept_loop accepts ⟨{ res with server_socket := (fd : Int) }, 1, d⟩).1,
               (Server.accept_loop accepts ⟨{ res with server_socket := (fd : Int) }, 1, d⟩).2.1,
               [Event.signal, Event.socket fd, Event.bind fd port true, Event.listen fd 5 true,
                 Event.stdout ("server: Awaiting TCP connections over port "
                   ++ toString port ++ "...\n")]
                ++ (Server.accept_loop accepts
                  ⟨{ res with server_socket := (fd : Int) }, 1, d⟩).2.2) := by
          simp [Server.serve, Server.fd_of, hfd]
        rw [hev] at hN ⊢
        have hcnt : ∀ l : List Event, ([Event.signal, Event.socket fd, Event.bind fd port true,
            Event.listen fd 5 true, Event.stdout ("server: Awaiting TCP connections over port "
              ++ toString port ++ "...\n")] ++ l).countP isAccepted = l.countP isAccepted := by
          intro l; simp [List.countP_cons, isAccepted]
        have hnm : ∀ l : List Event, fopenNames ([Event.signal, Event.socket fd,
            Event.bind fd port true, Event.listen fd 5 true,
            Event.stdout ("server: Awaiting TCP connections over port "
              ++ toString port ++ "...\n")] ++ l) = fopenNames l := by
          intro l; rfl
        simp only [hcnt, hnm] at hN ⊢
        have hseq := accept_loop_sequence accepts
          ⟨{ res with server_socket := (fd : Int) }, 1, d⟩
        dsimp only at hseq
        obtain ⟨i1, i2⟩ := hseq (by norm_num) (by norm_num) (by omega)
        refine ⟨?_, ?_⟩
        · rw [i1]
          apply List.map_congr_left
          intro k _
          congr 1
          ring
        · rw [i2]
          congr 1
          ring

/-- C2. In one receiver run the k-th call of `receive_file` uses sequence number k: the
counter starts at 1, every call takes the current value for its file name and adds one,
whatever the outcome of the receive (file not created, stream ended by 0, stream ended by
an error), and nothing resets it; so the file names passed to `fopen` are those of
1, 2, ..., N in acceptance order, N being the number of connections the run accepted.
N stays in the range of the C `int` counter.  (After a read error the run ends in the
undefined `fclose`, so such a connection is the last one the run accepts.) -/
theorem sequence_numbers_consecutive (argv : List String) (w : Server.World)
    (disk : Server.Disk)
    (hN : (Server.main argv w (Server.State.init disk)).2.2.countP isAccepted < 2 ^ 31) :
    fopenNames (Server.main argv w (Server.State.init disk)).2.2
      = (List.range ((Server.main argv w (Server.State.init disk)).2.2.countP isAccepted)).map
          (fun (k : Nat) => Server.filename ((k : Int) + 1))
    ∧ (Server.main argv w (Server.State.init disk)).2.1.file_counter
      = wrap_int ((((Server.main argv w (Server.State.init disk)).2.2.countP isAccepted : Nat)
          : Int) + 1)
    ∧ (∀ (c : Server.Conn) (st : Server.State),
        fopenNames (Server.receive_file c st).2.1 = [Server.filename st.file_counter]
        ∧ (Server.receive_file c st).1.file_counter = wrap_int (st.file_counter + 1)) := by
  refine ⟨?_, ?_, fun c st => ⟨fopenNames_receive_file c st, file_counter_receive_file c st⟩⟩
  · by_cases h1 : argv.length ≠ 2
    · simp [Server.main, h1, fopenNames, isAccepted, Server.State.init, wrap_int]
    · by_cases h2 : (strtol (argv.getD 1 "").data).2 ≠ []
          ∨ (strtol (argv.getD 1 "").data).1 < 1024
          ∨ (strtol (argv.getD 1 "").data).1 > 65535
      · simp only [Server.main, h1, h2, if_true, if_false]
        simp [fopenNames, isAccepted, Server.State.init, wrap_int]
      · simp only [Server.main, h1, h2, if_false] at hN ⊢
        exact (serve_sequence _ w (Server.State.init disk) rfl hN).1
  · by_cases h1 : argv.length ≠ 2
    · simp [Server.main, h1, fopenNames, isAccepted, Server.State.init, wrap_int]
    · by_cases h2 : (strtol (argv.getD 1 "").data).2 ≠ []
          ∨ (strtol (argv.getD 1 "").data).1 < 1024
          ∨ (strtol (argv.getD 1 "").data).1 > 65535
      · simp only [Server.main, h1, h2, if_true, if_false]
        simp [fopenNames, isAccepted, Server.State.init, wrap_int]
      · simp only [Server.main, h1, h2, if_false] at hN ⊢
        exact (serve_sequence _ w (Server.State.init disk) rfl hN).2

theorem sequence_numbers_consecutive_witness :
    fopenNames (Server.main ["server", "8080"]
        ⟨some 3, true, true,
          [some (4, ⟨true, [Server.RecvResult.data [1, 2], Server.RecvResult.data []]⟩),
           none,
           some (4, ⟨false, []⟩),
           some (4, ⟨true, []⟩),
           some (4, ⟨true, [Server.RecvResult.data [5], Server.RecvResult.error]⟩),
           some (4, ⟨true, [Server.RecvResult.data [6]]⟩)]⟩
        (Server.State.init (fun _ => none))).2.2
      = ["file-01.dat", "file-02.dat", "file-03.dat", "file-04.dat"]
    ∧ (Server.main ["server", "8080"]
        ⟨some 3, true, true,
          [some (4, ⟨true, [Server.RecvResult.data [1, 2], Server.RecvResult.data []]⟩),
           none,
           some (4, ⟨false, []⟩),
           some (4, ⟨true, []⟩),
           some (4, ⟨true, [Server.RecvResult.data [5], Server.RecvResult.error]⟩),
           some (4, ⟨true, [Server.RecvResult.data [6]]⟩)]⟩
        (Server.State.init (fun _ => none))).1 = Server.Outcome.undefined :=
  ⟨(sequence_numbers_consecutive ["server", "8080"]
        ⟨some 3, true, true,
          [some (4, ⟨true, [Server.RecvResult.data [1, 2], Server.RecvResult.data []]⟩),
           none,
           some (4, ⟨false, []⟩),
           some (4, ⟨true, []⟩),
           some (4, ⟨true, [Server.RecvResult.data [5], Server.RecvResult.error]⟩),
           some (4, ⟨true, [Server.RecvResult.data [6]]⟩)]⟩
        (fun _ => none) (by decide)).1, by decide⟩

/-! ## Lemmas on number parsing -/

theorem take_digits_all : ∀ (s : List Char) (acc : Nat), (∀ c ∈ s, c.isDigit = true) →
    take_digits s acc = (s.foldl (fun a c => 10 * a + digitVal c) acc, []) := by
  intro s
  induction s with
  | nil => intro acc _; rfl
  | cons c cs ih =>
    intro acc h
    rw [take_digits, if_pos (h c (List.mem_cons_self _ _)),
      ih _ (fun x hx => h x (List.mem_cons_of_mem _ hx))]
    rfl

theorem isDigit_bounds (c : Char) (h : c.isDigit = true) : 48 ≤ c.toNat ∧ c.toNat ≤ 57 := by
  simp only [Char.isDigit, Bool.and_eq_true, decide_eq_true_eq] at h
  have h1 : (48 : UInt32) ≤ c.val := h.1
  have h2 : c.val ≤ (57 : UInt32) := h.2
  rw [UInt32.le_def] at h1 h2
  simp only [Char.toNat]
  constructor
  · exact h1
  · exact h2

theorem strtol_digits (s : List Char) (hne : s ≠ []) (hd : ∀ c ∈ s, c.isDigit = true)
    (hmax : decVal s ≤ 65535) : strtol s = ((decVal s : Int), []) := by
  obtain ⟨c, cs, rfl⟩ := List.exists_cons_of_ne_nil hne
  have hc := hd c (List.mem_cons_self _ _)
  have hb := isDigit_bounds c hc
  have hsp : isspace c = false := by
    simp only [isspace, Bool.or_eq_false_iff, Bool.and_eq_false_iff, decide_eq_false_iff_not]
    omega
  have hm : c ≠ '-' := by
    intro h; rw [h] at hb; revert hb; decide
  have hp : c ≠ '+' := by
    intro h; rw [h] at hb; revert hb; decide
  have hv : take_digits (c :: cs) 0 = (decVal (c :: cs), []) := take_digits_all _ 0 hd
  simp only [strtol, skip_space, hsp, List.head?_cons, Option.some.injEq, hm, hp, or_self,
    if_false, hc, if_true, hv, decide_False, Bool.false_eq_true]
  have h1 : min LONG_MAX (decVal (c :: cs) : Int) = (decVal (c :: cs) : Int) := by
    apply min_eq_right; unfold LONG_MAX; omega
  have h2 : max LONG_MIN (decVal (c :: cs) : Int) = (decVal (c :: cs) : Int) := by
    apply max_eq_right; unfold LONG_MIN; omega
  rw [h1, h2]

/-- C5. Sender and receiver both gate on the port.  If the parsed port (`atoi` in the
sender, `strtol` in the receiver) is outside 1024..65535 the program exits with code 1
and has made no `socket`, `bind`, `listen` or `connect` call.  If the argument is a
decimal integer with a value inside 1024..65535, bounds included, the program goes on
with the code after the port check. -/
theorem port_check_gates_sockets (prog ip port : String) (files : List String)
    (cw : Nat → Client.SendWorld) (r : Client.Resources)
    (sw : Server.World) (st : Server.State) :
    (¬ (1024 ≤ atoi port.data ∧ atoi port.data ≤ 65535) →
      (Client.main (prog :: ip :: port :: files) cw r).1 = 1
      ∧ (Client.main (prog :: ip :: port :: files) cw r).2.2.any isSocketOp = false)
    ∧ (¬ (1024 ≤ (strtol port.data).1 ∧ (strtol port.data).1 ≤ 65535) →
      (Server.main [prog, port] sw st).1 = Server.Outcome.exit 1
      ∧ (Server.main [prog, port] sw st).2.2.any isSocketOp = false)
    ∧ (port.data ≠ [] → (∀ c ∈ port.data, c.isDigit = true) →
      1024 ≤ decVal port.data → decVal port.data ≤ 65535 →
      (files ≠ [] → Client.main (prog :: ip :: port :: files) cw r
        = Client.transfer_files ip (decVal port.data) (prog :: ip :: port :: files) cw r)
      ∧ Server.main [prog, port] sw st = Server.serve (decVal port.data) sw st) := by
  refine ⟨?_, ?_, ?_⟩
  · intro h
    have h' : atoi port.data < 1024 ∨ atoi port.data > 65535 := by omega
    by_cases hl : (prog :: ip :: port :: files).length < 4
    · simp only [Client.main]
      rw [if_pos hl]
      simp [isSocketOp]
    · simp only [Client.main]
      rw [if_neg hl]
      simp only [List.getD_cons_succ, List.getD_cons_zero]
      rw [if_pos h']
      simp [isSocketOp]
  · intro h
    have h' : (strtol port.data).2 ≠ [] ∨ (strtol port.data).1 < 1024
        ∨ (strtol port.data).1 > 65535 := by
      right; omega
    simp only [Server.main, List.length_cons, List.length_nil, ne_eq, not_true_eq_false,
      if_false, List.getD_cons_succ, List.getD_cons_zero]
    rw [if_pos h']
    simp [isSocketOp]
  · intro hne hd hlo hhi
    have hs := strtol_digits port.data hne hd hhi
    have hw : wrap_int (decVal port.data : Int) = (decVal port.data : Int) :=
      wrap_int_of_range _ (by omega) (by omega)
    constructor
    · intro hf
      obtain ⟨f, fs, rfl⟩ := List.exists_cons_of_ne_nil hf
      have hl : ¬ (prog :: ip :: port :: f :: fs).length < 4 := by simp
      simp only [Client.main, hl, if_false, List.getD_cons_succ, List.getD_cons_zero, atoi, hs, hw]
      rw [if_neg (by omega)]
    · simp only [Server.main, List.length_cons, List.length_nil, ne_eq, not_true_eq_false,
        if_false, List.getD_cons_succ, List.getD_cons_zero, hs, hw]
      rw [if_neg (by simp; omega)]

theorem port_check_gates_sockets_witness :
    ((Client.main ["client", "127.0.0.1", "80", "a.txt"]
        (fun _ => ⟨true, true, 1, true, [7], some 3, true, true, 1⟩) Client.Resources.init).1 = 1
      ∧ (Client.main ["client", "127.0.0.1", "80", "a.txt"]
        (fun _ => ⟨true, true, 1, true, [7], some 3, true, true, 1⟩)
        Client.Resources.init).2.2.any isSocketOp = false)
    ∧ ((Server.main ["server", "80"] ⟨some 3, true, true, []⟩
        (Server.State.init (fun _ => none))).1 = Server.Outcome.exit 1
      ∧ (Server.main ["server", "80"] ⟨some 3, true, true, []⟩
        (Server.State.init (fun _ => none))).2.2.any isSocketOp = false)
    ∧ (Client.main ["client", "127.0.0.1", "1024", "a.txt"]
        (fun _ => ⟨true, true, 1, true, [7], some 3, true, true, 1⟩) Client.Resources.init
      = Client.transfer_files "127.0.0.1" 1024 ["client", "127.0.0.1", "1024", "a.txt"]
        (fun _ => ⟨true, true, 1, true, [7], some 3, true, true, 1⟩) Client.Resources.init)
    ∧ (Server.main ["server", "65535"] ⟨some 3, true, true, []⟩
        (Server.State.init (fun _ => none))
      = Server.serve 65535 ⟨some 3, true, true, []⟩ (Server.State.init (fun _ => none))) :=
  ⟨(port_check_gates_sockets "client" "127.0.0.1" "80" ["a.txt"]
      (fun _ => ⟨true, true, 1, true, [7], some 3, true, true, 1⟩) Client.Resources.init
      ⟨some 3, true, true, []⟩ (Server.State.init (fun _ => none))).1 (by decide),
   (port_check_gates_sockets "server" "127.0.0.1" "80" ["a.txt"]
      (fun _ => ⟨true, true, 1, true, [7], some 3, true, true, 1⟩) Client.Resources.init
      ⟨some 3, true, true, []⟩ (Server.State.init (fun _ => none))).2.1 (by decide),
   ((port_check_gates_sockets "client" "127.0.0.1" "1024" ["a.txt"]
      (fun _ => ⟨true, true, 1, true, [7], some 3, true, true, 1⟩) Client.Resources.init
      ⟨some 3, true, true, []⟩ (Server.State.init (fun _ => none))).2.2
      (by decide) (by decide) (by decide) (by decide)).1 (by decide),
   ((port_check_gates_sockets "server" "127.0.0.1" "65535" ["a.txt"]
      (fun _ => ⟨true, true, 1, true, [7], some 3, true, true, 1⟩) Client.Resources.init
      ⟨some 3, true, true, []⟩ (Server.State.init (fun _ => none))).2.2
      (by decide) (by decide) (by decide) (by decide)).2⟩

/-! ## The paths through `send_file` -/

theorem send_file_open_failure (ip name : String) (port : Int) (w : Client.SendWorld)
    (r : Client.Resources) (h1 : w.fopen_ok = false) :
    Client.send_file ip port name w r
      = (r, [Event.fopen name false,
          Event.stderr ("client: ERROR: Unable to open file \"" ++ name ++ "\"\n")]) := by
  simp only [Client.send_file, h1, if_true]

theorem send_file_oversize (ip name : String) (port : Int) (w : Client.SendWorld)
    (r : Client.Resources) (h1 : w.fopen_ok = true) (h2 : w.file_size > 10 * 1024 * 1024) :
    Client.send_file ip port name w r
      = (r, [Event.fopen name true, Event.fclose (some name),
          Event.stderr ("client: ERROR: File \"" ++ name
            ++ "\" exceeds 10MB limit. Skipping.\n")]) := by
  simp only [Client.send_file, h1, h2, if_true, Bool.true_eq_false, if_false]
  rfl

theorem send_file_malloc_failure (ip name : String) (port : Int) (w : Client.SendWorld)
    (r : Client.Resources) (h1 : w.fopen_ok = true) (h2 : ¬ w.file_size > 10 * 1024 * 1024)
    (h3 : w.malloc_ok = false) :
    Client.send_file ip port name w r
      = ({ r with file_contents := none },
         [Event.fopen name true, Event.malloc (to_size_t w.file_size) false,
          Event.fclose (some name), Event.stderr "client: ERROR: Memory allocation failed.\n"]) := by
  simp only [Client.send_file, h1, h2, h3, if_true, Bool.true_eq_false, if_false,
    Bool.false_eq_true]
  rfl

theorem send_file_short_read (ip name : String) (port : Int) (w : Client.SendWorld)
    (r : Client.Resources) (h1 : w.fopen_ok = true) (h2 : ¬ w.file_size > 10 * 1024 * 1024)
    (h3 : w.malloc_ok = true) (h4 : w.fread_got.length ≠ to_size_t w.file_size) :
    Client.send_file ip port name w r
      = ((Client.cleanup { r with file_contents := some w.fread_got }).1,
         [Event.fopen name true, Event.malloc (to_size_t w.file_size) true,
          Event.fread (to_size_t w.file_size) w.fread_got,
          Event.fclose (some name), Event.stderr "client: ERROR: File read error.\n"]
          ++ (Client.cleanup { r with file_contents := some w.fread_got }).2) := by
  simp only [Client.send_file, h1, h2, h3, h4, if_true, Bool.true_eq_false, if_false,
    reduceCtorEq, ne_eq, not_false_eq_true]
  rfl

theorem send_file_socket_failure (ip name : String) (port : Int) (w : Client.SendWorld)
    (r : Client.Resources) (h1 : w.fopen_ok = true) (h2 : ¬ w.file_size > 10 * 1024 * 1024)
    (h3 : w.malloc_ok = true) (h4 : w.fread_got.length = to_size_t w.file_size)
    (h5 : w.socket_ret = none) :
    Client.send_file ip port name w r
      = ((Client.cleanup { sockfd := -1, file_contents := some w.fread_got }).1,
         [Event.fopen name true, Event.malloc (to_size_t w.file_size) true,
          Event.fread (to_size_t w.file_size) w.fread_got,
          Event.fclose (some name), Event.socket (-1),
          Event.stderr "client: ERROR: Failed to create socket.\n"]
          ++ (Client.cleanup { sockfd := -1, file_contents := some w.fread_got }).2) := by
  have h4' : ¬ (w.fread_got.length ≠ to_size_t w.file_size) := by simpa using h4
  have hneg : ((-1 : Int) < 0) := by decide
  simp only [Client.send_file, h1, h2, h3, h4', h5, Client.fd_of, hneg, if_true,
    Bool.true_eq_false, if_false, reduceCtorEq]
  rfl

theorem send_file_invalid_address (ip name : String) (port : Int) (w : Client.SendWorld)
    (r : Client.Resources) (fd : Nat) (h1 : w.fopen_ok = true)
    (h2 : ¬ w.file_size > 10 * 1024 * 1024)
    (h3 : w.malloc_ok = true) (h4 : w.fread_got.length = to_size_t w.file_size)
    (h5 : w.socket_ret = some fd) (h6 : w.inet_addr_ok = false) :
    Client.send_file ip port name w r
      = ((Client.cleanup { sockfd := fd, file_contents := some w.fread_got }).1,
         [Event.fopen name true, Event.malloc (to_size_t w.file_size) true,
          Event.fread (to_size_t w.file_size) w.fread_got,
          Event.fclose (some name), Event.socket fd, Event.inet_addr ip false,
          Event.stderr "client: ERROR: Invalid server IP address.\n"]
          ++ (Client.cleanup { sockfd := fd, file_contents := some w.fread_got }).2) := by
  have h4' : ¬ (w.fread_got.length ≠ to_size_t w.file_size) := by simpa using h4
  have hneg : ¬ ((fd : Int) < 0) := by omega
  simp only [Client.send_file, h1, h2, h3, h4', h5, h6, Client.fd_of, hneg, if_true,
    Bool.true_eq_false, if_false, reduceCtorEq]
  rfl

theorem send_file_connect_failure (ip name : String) (port : Int) (w : Client.SendWorld)
    (r : Client.Resources) (fd : Nat) (h1 : w.fopen_ok = true)
    (h2 : ¬ w.file_size > 10 * 1024 * 1024)
    (h3 : w.malloc_ok = true) (h4 : w.fread_got.length = to_size_t w.file_size)
    (h5 : w.socket_ret = some fd) (h6 : w.inet_addr_ok = true) (h7 : w.connect_ok = false) :
    Client.send_file ip port name w r
      = ((Client.cleanup { sockfd := fd, file_contents := some w.fread_got }).1,
         [Event.fopen name true, Event.malloc (to_size_t w.file_size) true,
          Event.fread (to_size_t w.file_size) w.fread_got,
          Event.fclose (some name), Event.socket fd, Event.inet_addr ip true,
          Event.stdout ("client: Connecting to " ++ ip ++ ":" ++ toString port ++ "...\n"),
          Event.connect fd ip port false,
          Event.stderr "client: ERROR: Connection failed.\n"]
          ++ (Client.cleanup { sockfd := fd, file_contents := some w.fread_got }).2) := by
  have h4' : ¬ (w.fread_got.length ≠ to_size_t w.file_size) := by simpa using h4
  have hneg : ¬ ((fd : Int) < 0) := by omega
  simp only [Client.send_file, h1, h2, h3, h4', h5, h6, h7, Client.fd_of, hneg, if_true,
    Bool.true_eq_false, if_false, reduceCtorEq]
  rfl

theorem send_file_connected (ip name : String) (port : Int) (w : Client.SendWorld)
    (r : Client.Resources) (fd : Nat) (h1 : w.fopen_ok = true)
    (h2 : ¬ w.file_size > 10 * 1024 * 1024)
    (h3 : w.malloc_ok = true) (h4 : w.fread_got.length = to_size_t w.file_size)
    (h5 : w.socket_ret = some fd) (h6 : w.inet_addr_ok = true) (h7 : w.connect_ok = true) :
    Client.send_file ip port name w r
      = ((Client.cleanup { sockfd := fd, file_contents := some w.fread_got }).1,
         [Event.fopen name true, Event.malloc (to_size_t w.file_size) true,
          Event.fread (to_size_t w.file_size) w.fread_got,
          Event.fclose (some name), Event.socket fd, Event.inet_addr ip true,
          Event.stdout ("client: Connecting to " ++ ip ++ ":" ++ toString port ++ "...\n"),
          Event.connect fd ip port true,
          Event.stdout "client: Success!\n",
          Event.stdout ("client: Sending: \"" ++ name ++ "\"...\n"),
          Event.send fd w.fread_got (to_size_t w.file_size) w.send_ret,
          (if w.send_ret < 0 then Event.stderr "client: ERROR: Send failed.\n"
           else Event.stdout "client: Done.\n")]
          ++ (Client.cleanup { sockfd := fd, file_contents := some w.fread_got }).2) := by
  have h4' : ¬ (w.fread_got.length ≠ to_size_t w.file_size) := by simpa using h4
  have hneg : ¬ ((fd : Int) < 0) := by omega
  simp only [Client.send_file, h1, h2, h3, h4', h5, h6, h7, Client.fd_of, hneg, if_true,
    Bool.true_eq_false, if_false, reduceCtorEq, Option.getD_some]
  split <;> rfl

/-! ## Lemmas on the sender -/

theorem send_file_from_empty (ip name : String) (port : Int) (w : Client.SendWorld) :
    (Client.send_file ip port name w Client.Resources.init).1 = Client.Resources.init
    ∧ fopenNames (Client.send_file ip port name w Client.Resources.init).2 = [name] := by
  have hb : ∀ got : List Byte,
      Client.cleanup { Client.Resources.init with file_contents := some got }
        = (Client.Resources.init, [Event.free]) := by
    intro got; simp [Client.cleanup, Client.Resources.init]
  have hsb : ∀ (fd : Nat) (got : List Byte),
      Client.cleanup { sockfd := (fd : Int), file_contents := some got }
        = (Client.Resources.init, [Event.close fd, Event.free]) := by
    intro fd got
    have h : (fd : Int) ≥ 0 := by omega
    simp [Client.cleanup, Client.Resources.init, h]
  have hb2 : ∀ got : List Byte,
      Client.cleanup { sockfd := -1, file_contents := some got }
        = (Client.Resources.init, [Event.free]) := hb
  by_cases h1 : w.fopen_ok = false
  · rw [send_file_open_failure ip name port w _ h1]; exact ⟨rfl, rfl⟩
  simp only [Bool.not_eq_false] at h1
  by_cases h2 : w.file_size > 10 * 1024 * 1024
  · rw [send_file_oversize ip name port w _ h1 h2]; exact ⟨rfl, rfl⟩
  by_cases h3 : w.malloc_ok = false
  · rw [send_file_malloc_failure ip name port w _ h1 h2 h3]; exact ⟨rfl, rfl⟩
  simp only [Bool.not_eq_false] at h3
  by_cases h4 : w.fread_got.length = to_size_t w.file_size
  swap
  · rw [send_file_short_read ip name port w _ h1 h2 h3 h4, hb]; exact ⟨rfl, rfl⟩
  cases h5 : w.socket_ret with
  | none =>
    rw [send_file_socket_failure ip name port w _ h1 h2 h3 h4 h5, hb2]; exact ⟨rfl, rfl⟩
  | some fd =>
    by_cases h6 : w.inet_addr_ok = false
    · rw [send_file_invalid_address ip name port w _ fd h1 h2 h3 h4 h5 h6, hsb]
      exact ⟨rfl, rfl⟩
    simp only [Bool.not_eq_false] at h6
    by_cases h7 : w.connect_ok = false
    · rw [send_file_connect_failure ip name port w _ fd h1 h2 h3 h4 h5 h6 h7, hsb]
      exact ⟨rfl, rfl⟩
    simp only [Bool.not_eq_false] at h7
    rw [send_file_connected ip name port w _ fd h1 h2 h3 h4 h5 h6 h7, hsb]
    by_cases h8 : w.send_ret < 0 <;> simp [h8, fopenNames]

theorem send_loop_log (ip : String) (port : Int) (w : Nat → Client.SendWorld) :
    ∀ (paths : List String) (i : Nat),
    Client.send_loop ip port w i paths Client.Resources.init
      = (Client.Resources.init, (paths.enumFrom i).flatMap (path_log ip port w)) := by
  intro paths
  induction paths with
  | nil => intro i; rfl
  | cons f rest ih =>
    intro i
    rw [Client.send_loop]
    by_cases h : (w i).access_ok = false
    · rw [if_pos h]
      simp only [ih, List.enumFrom_cons, List.flatMap_cons, path_log, h, if_true]
    · rw [if_neg h]
      simp only [(send_file_from_empty ip f port (w i)).1, ih, List.enumFrom_cons,
        List.flatMap_cons, path_log, h, if_false, List.cons_append, List.nil_append,
        List.singleton_append]
      rfl

theorem fopenNames_path_logs (ip : String) (port : Int) (w : Nat → Client.SendWorld) :
    ∀ (ps : List (Nat × String)),
    fopenNames (ps.flatMap (path_log ip port w))
      = (ps.filter (fun p => (w p.1).access_ok)).map Prod.snd := by
  intro ps
  induction ps with
  | nil => rfl
  | cons p ps ih =>
    rw [List.flatMap_cons, fopenNames_append, ih]
    by_cases h : (w p.1).access_ok = false
    · simp [path_log, h, fopenNames]
    · simp only [Bool.not_eq_false] at h
      have hs := (send_file_from_empty ip p.2 port (w p.1)).2
      simp [path_log, h, fopenNames, hs]

/-- C6. With a valid port and at least one path, the sender handles the paths one by one
in the order given: for a path that does not exist it warns and goes on, for a path that
exists it runs `send_file` once, whole, whatever happens in the transfer, and goes on;
so `send_file` opens exactly the existing paths, each once, in order.  After the pass the
record is empty and the process exits with code 0. -/
theorem main_sends_each_existing_path_once (prog ip port : String) (paths : List String)
    (w : Nat → Client.SendWorld)
    (hport : 1024 ≤ atoi port.data ∧ atoi port.data ≤ 65535) (hne : paths ≠ []) :
    (Client.main (prog :: ip :: port :: paths) w Client.Resources.init).1 = 0
    ∧ (Client.main (prog :: ip :: port :: paths) w Client.Resources.init).2.2
      = [Event.signal] ++ (paths.enumFrom 3).flatMap (path_log ip (atoi port.data) w)
        ++ [Event.stdout "client: File transfer(s) complete.\n",
            Event.stdout "client: Goodbye!\n"]
    ∧ fopenNames (Client.main (prog :: ip :: port :: paths) w Client.Resources.init).2.2
      = ((paths.enumFrom 3).filter (fun p => (w p.1).access_ok)).map Prod.snd
    ∧ (Client.main (prog :: ip :: port :: paths) w Client.Resources.init).2.1
      = Client.Resources.init := by
  obtain ⟨f, fs, rfl⟩ := List.exists_cons_of_ne_nil hne
  have hl : ¬ (prog :: ip :: port :: f :: fs).length < 4 := by simp
  have hp : ¬ (atoi port.data < 1024 ∨ atoi port.data > 65535) := by omega
  have hclean : Client.cleanup Client.Resources.init = (Client.Resources.init, []) := by
    simp [Client.cleanup, Client.Resources.init]
  have hmain : Client.main (prog :: ip :: port :: f :: fs) w Client.Resources.init
      = (0, Client.Resources.init,
         [Event.signal] ++ ((f :: fs).enumFrom 3).flatMap (path_log ip (atoi port.data) w)
          ++ [Event.stdout "client: File transfer(s) complete.\n",
              Event.stdout "client: Goodbye!\n"]) := by
    simp only [Client.main]
    rw [if_neg hl]
    simp only [List.getD_cons_succ, List.getD_cons_zero]
    rw [if_neg hp]
    simp only [Client.transfer_files, List.drop_succ_cons, List.drop_zero, send_loop_log,
      hclean, List.append_nil]
  rw [hmain]
  refine ⟨rfl, rfl, ?_, rfl⟩
  simp only [fopenNames_append, fopenNames_path_logs]
  simp [fopenNames]

theorem main_sends_each_existing_path_once_witness :
    (Client.main ["client", "127.0.0.1", "8080", "a.txt", "b.txt"]
        (fun i => if i = 3
          then ⟨true, true, 10, true, [0, 1, 2, 3, 4, 5, 6, 7, 8, 9], some 3, true, true, 10⟩
          else ⟨false, false, 0, false, [], none, false, false, -1⟩)
        Client.Resources.init)
      = (0, Client.Resources.init,
         [Event.signal, Event.access "a.txt" true,
          Event.fopen "a.txt" true, Event.malloc 10 true,
          Event.fread 10 [0, 1, 2, 3, 4, 5, 6, 7, 8, 9],
          Event.fclose (some "a.txt"), Event.socket 3, Event.inet_addr "127.0.0.1" true,
          Event.stdout "client: Connecting to 127.0.0.1:8080...\n",
          Event.connect 3 "127.0.0.1" 8080 true,
          Event.stdout "client: Success!\n",
          Event.stdout "client: Sending: \"a.txt\"...\n",
          Event.send 3 [0, 1, 2, 3, 4, 5, 6, 7, 8, 9] 10 10,
          Event.stdout "client: Done.\n", Event.close 3, Event.free,
          Event.access "b.txt" false,
          Event.stderr "client: ERROR: File \"b.txt\" does not exist. Skipping.\n",
          Event.stdout "client: File transfer(s) complete.\n",
          Event.stdout "client: Goodbye!\n"]) :=
  Prod.ext
    (main_sends_each_existing_path_once "client" "127.0.0.1" "8080" ["a.txt", "b.txt"]
      (fun i => if i = 3
        then ⟨true, true, 10, true, [0, 1, 2, 3, 4, 5, 6, 7, 8, 9], some 3, true, true, 10⟩
        else ⟨false, false, 0, false, [], none, false, false, -1⟩)
      (by decide) (by decide)).1
    (Prod.ext
      (main_sends_each_existing_path_once "client" "127.0.0.1" "8080" ["a.txt", "b.txt"]
        (fun i => if i = 3
          then ⟨true, true, 10, true, [0, 1, 2, 3, 4, 5, 6, 7, 8, 9], some 3, true, true, 10⟩
          else ⟨false, false, 0, false, [], none, false, false, -1⟩)
        (by decide) (by decide)).2.2.2
      (main_sends_each_existing_path_once "client" "127.0.0.1" "8080" ["a.txt", "b.txt"]
        (fun i => if i = 3
          then ⟨true, true, 10, true, [0, 1, 2, 3, 4, 5, 6, 7, 8, 9], some 3, true, true, 10⟩
          else ⟨false, false, 0, false, [], none, false, false, -1⟩)
        (by decide) (by decide)).2.1)

theorem cleanup_buffer_only (got : List Byte) :
    Client.cleanup { sockfd := -1, file_contents := some got }
      = (Client.Resources.init, [Event.free]) := by
  simp [Client.cleanup, Client.Resources.init]

theorem cleanup_socket_and_buffer (fd : Nat) (got : List Byte) :
    Client.cleanup { sockfd := (fd : Int), file_contents := some got }
      = (Client.Resources.init, [Event.close fd, Event.free]) := by
  have h : (fd : Int) ≥ 0 := by omega
  simp [Client.cleanup, Client.Resources.init, h]

/-- C10. Called with the empty record (`sockfd = -1`, `file_contents = NULL`),
`send_file` returns with the record empty again on every path; the log then holds as many
`close` calls as descriptors obtained from `socket`, on the same descriptor, and as many
`free` calls as successful `malloc` calls, at most one of each; `cleanup` on the empty
record changes nothing and calls nothing, and a second `cleanup` after a first never
does anything. -/
theorem send_file_releases_resources (ip name : String) (port : Int) (w : Client.SendWorld) :
    (Client.send_file ip port name w Client.Resources.init).1 = Client.Resources.init
    ∧ (Client.send_file ip port name w Client.Resources.init).2.countP isClose
        = (Client.send_file ip port name w Client.Resources.init).2.countP isSocketOpened
    ∧ (∀ fd : Nat, (Client.send_file ip port name w Client.Resources.init).2.count
          (Event.close fd)
        = (Client.send_file ip port name w Client.Resources.init).2.count (Event.socket fd))
    ∧ (Client.send_file ip port name w Client.Resources.init).2.count Event.free
        = (Client.send_file ip port name w Client.Resources.init).2.countP isAlloc
    ∧ (Client.send_file ip port name w Client.Resources.init).2.countP isSocketOpened ≤ 1
    ∧ (Client.send_file ip port name w Client.Resources.init).2.countP isAlloc ≤ 1
    ∧ Client.cleanup Client.Resources.init = (Client.Resources.init, [])
    ∧ (∀ r : Client.Resources,
        Client.cleanup (Client.cleanup r).1 = ((Client.cleanup r).1, [])) := by
  have hidem : ∀ r : Client.Resources,
      Client.cleanup (Client.cleanup r).1 = ((Client.cleanup r).1, []) := by
    intro r
    by_cases h1 : r.sockfd ≥ 0 <;> by_cases h2 : r.file_contents = none <;>
      simp [Client.cleanup, h1, h2]
  have hinit : ({ Client.Resources.init with file_contents := none } : Client.Resources)
      = Client.Resources.init := rfl
  have hclean : Client.cleanup Client.Resources.init = (Client.Resources.init, []) := by
    simp [Client.cleanup, Client.Resources.init]
  by_cases h1 : w.fopen_ok = false
  · rw [send_file_open_failure ip name port w _ h1]
    simp [isClose, isSocketOpened, isAlloc, hclean, hidem]
  simp only [Bool.not_eq_false] at h1
  by_cases h2 : w.file_size > 10 * 1024 * 1024
  · rw [send_file_oversize ip name port w _ h1 h2]
    simp [isClose, isSocketOpened, isAlloc, hclean, hidem]
  by_cases h3 : w.malloc_ok = false
  · rw [send_file_malloc_failure ip name port w _ h1 h2 h3]
    simp [isClose, isSocketOpened, isAlloc, hclean, hinit, hidem]
  simp only [Bool.not_eq_false] at h3
  by_cases h4 : w.fread_got.length = to_size_t w.file_size
  swap
  · rw [send_file_short_read ip name port w _ h1 h2 h3 h4]
    simp [Client.Resources.init, cleanup_buffer_only, isClose, isSocketOpened, isAlloc,
      hidem]
    simpa [Client.Resources.init] using hclean
  cases h5 : w.socket_ret with
  | none =>
    rw [send_file_socket_failure ip name port w _ h1 h2 h3 h4 h5]
    simp [cleanup_buffer_only, isClose, isSocketOpened, isAlloc, hclean, hidem]
  | some fd =>
    by_cases h6 : w.inet_addr_ok = false
    · rw [send_file_invalid_address ip name port w _ fd h1 h2 h3 h4 h5 h6]
      simp [cleanup_socket_and_buffer, isClose, isSocketOpened, isAlloc, hclean, hidem,
        List.count_cons]
    simp only [Bool.not_eq_false] at h6
    by_cases h7 : w.connect_ok = false
    · rw [send_file_connect_failure ip name port w _ fd h1 h2 h3 h4 h5 h6 h7]
      simp [cleanup_socket_and_buffer, isClose, isSocketOpened, isAlloc, hclean, hidem,
        List.count_cons]
    simp only [Bool.not_eq_false] at h7
    rw [send_file_connected ip name port w _ fd h1 h2 h3 h4 h5 h6 h7]
    by_cases h8 : w.send_ret < 0 <;>
      simp [cleanup_socket_and_buffer, isClose, isSocketOpened, isAlloc, hclean, hidem,
        List.count_cons, h8]

/-- C3 (as stated, refuted). A file whose measured size is exactly 10 MiB, which is "at
or above the ceiling", is not skipped: with every step succeeding `send_file` allocates
the buffer, creates a socket, connects and sends. -/
theorem send_file_at_ceiling_is_sent :
    (Client.send_file "127.0.0.1" 8080 "big.bin"
        ⟨true, true, 10 * 1024 * 1024, true, List.replicate 10485760 0, some 3, true, true,
          10485760⟩ Client.Resources.init).2
      = [Event.fopen "big.bin" true, Event.malloc 10485760 true,
         Event.fread 10485760 (List.replicate 10485760 0),
         Event.fclose (some "big.bin"), Event.socket 3, Event.inet_addr "127.0.0.1" true,
         Event.stdout "client: Connecting to 127.0.0.1:8080...\n",
         Event.connect 3 "127.0.0.1" 8080 true,
         Event.stdout "client: Success!\n",
         Event.stdout "client: Sending: \"big.bin\"...\n",
         Event.send 3 (List.replicate 10485760 0) 10485760 10485760,
         Event.stdout "client: Done.\n", Event.close 3, Event.free] := by
  have hs : to_size_t (10 * 1024 * 1024) = 10485760 := by decide
  rw [send_file_connected "127.0.0.1" "big.bin" 8080 _ _ 3 rfl (by decide) rfl
    (by rw [List.length_replicate]; exact hs.symm) rfl rfl rfl]
  rw [cleanup_socket_and_buffer 3, hs]
  rfl

/-- C3 (amended). With the file opened: if its measured size is strictly above
10 MiB, `send_file` closes it, warns and returns, with no `malloc`, `socket` or `connect`
call and the record unchanged; if the size is at most 10 MiB, a file of exactly 10 MiB
included, `send_file` goes on to allocate the buffer, and when allocation, read, socket,
address and connect succeed it carries out the whole transfer: it connects, offers the
whole buffer to `send`, closes the socket and frees the buffer. -/
theorem send_file_size_ceiling (ip name : String) (port : Int) (w : Client.SendWorld)
    (r : Client.Resources) (hopen : w.fopen_ok = true) :
    (w.file_size > 10 * 1024 * 1024 →
      Client.send_file ip port name w r
        = (r, [Event.fopen name true, Event.fclose (some name),
            Event.stderr ("client: ERROR: File \"" ++ name
              ++ "\" exceeds 10MB limit. Skipping.\n")]))
    ∧ (w.file_size ≤ 10 * 1024 * 1024 →
      (Client.send_file ip port name w r).2.take 2
        = [Event.fopen name true, Event.malloc (to_size_t w.file_size) w.malloc_ok]
      ∧ (∀ fd : Nat, w.malloc_ok = true → w.fread_got.length = to_size_t w.file_size →
          w.socket_ret = some fd → w.inet_addr_ok = true → w.connect_ok = true →
          Client.send_file ip port name w r
            = (Client.Resources.init,
               [Event.fopen name true, Event.malloc (to_size_t w.file_size) true,
                Event.fread (to_size_t w.file_size) w.fread_got,
                Event.fclose (some name), Event.socket fd, Event.inet_addr ip true,
                Event.stdout ("client: Connecting to " ++ ip ++ ":" ++ toString port
                  ++ "...\n"),
                Event.connect fd ip port true,
                Event.stdout "client: Success!\n",
                Event.stdout ("client: Sending: \"" ++ name ++ "\"...\n"),
                Event.send fd w.fread_got (to_size_t w.file_size) w.send_ret,
                (if w.send_ret < 0 then Event.stderr "client: ERROR: Send failed.\n"
                 else Event.stdout "client: Done.\n"),
                Event.close fd, Event.free]))) := by
  constructor
  · intro h
    exact send_file_oversize ip name port w r hopen h
  · intro h
    have h2 : ¬ w.file_size > 10 * 1024 * 1024 := by omega
    constructor
    · by_cases h3 : w.malloc_ok = false
      · rw [send_file_malloc_failure ip name port w r hopen h2 h3, h3]; rfl
      simp only [Bool.not_eq_false] at h3
      by_cases h4 : w.fread_got.length = to_size_t w.file_size
      swap
      · rw [send_file_short_read ip name port w r hopen h2 h3 h4, h3]; rfl
      cases h5 : w.socket_ret with
      | none => rw [send_file_socket_failure ip name port w r hopen h2 h3 h4 h5, h3]; rfl
      | some fd =>
        by_cases h6 : w.inet_addr_ok = false
        · rw [send_file_invalid_address ip name port w r fd hopen h2 h3 h4 h5 h6, h3]; rfl
        simp only [Bool.not_eq_false] at h6
        by_cases h7 : w.connect_ok = false
        · rw [send_file_connect_failure ip name port w r fd hopen h2 h3 h4 h5 h6 h7, h3]; rfl
        simp only [Bool.not_eq_false] at h7
        rw [send_file_connected ip name port w r fd hopen h2 h3 h4 h5 h6 h7, h3]; rfl
    · intro fd h3 h4 h5 h6 h7
      rw [send_file_connected ip name port w r fd hopen h2 h3 h4 h5 h6 h7,
        cleanup_socket_and_buffer]
      rfl

theorem send_file_size_ceiling_witness :
    Client.send_file "127.0.0.1" 8080 "big.bin"
        ⟨true, true, 10485761, true, [], some 3, true, true, 0⟩ Client.Resources.init
      = (Client.Resources.init, [Event.fopen "big.bin" true, Event.fclose (some "big.bin"),
          Event.stderr "client: ERROR: File \"big.bin\" exceeds 10MB limit. Skipping.\n"])
    ∧ Client.send_file "127.0.0.1" 8080 "big.bin"
        ⟨true, true, 10485760, true, List.replicate 10485760 0, some 3, true, true, 10485760⟩
        Client.Resources.init
      = (Client.Resources.init,
         [Event.fopen "big.bin" true, Event.malloc 10485760 true,
          Event.fread 10485760 (List.replicate 10485760 0),
          Event.fclose (some "big.bin"), Event.socket 3, Event.inet_addr "127.0.0.1" true,
          Event.stdout "client: Connecting to 127.0.0.1:8080...\n",
          Event.connect 3 "127.0.0.1" 8080 true,
          Event.stdout "client: Success!\n",
          Event.stdout "client: Sending: \"big.bin\"...\n",
          Event.send 3 (List.replicate 10485760 0) 10485760 10485760,
          Event.stdout "client: Done.\n",
          Event.close 3, Event.free]) :=
  ⟨(send_file_size_ceiling "127.0.0.1" "big.bin" 8080
      ⟨true, true, 10485761, true, [], some 3, true, true, 0⟩ Client.Resources.init rfl).1
      (by decide),
   ((send_file_size_ceiling "127.0.0.1" "big.bin" 8080
      ⟨true, true, 10485760, true, List.replicate 10485760 0, some 3, true, true, 10485760⟩
      Client.Resources.init rfl).2 (by decide)).2 3 rfl
      (by
        show (List.replicate 10485760 (0 : Byte)).length = to_size_t 10485760
        rw [List.length_replicate]
        decide)
      rfl rfl rfl⟩

/-- C7 (failing input). On a two-byte buffer, with the connection established and `send`
accepting one byte (return value 1, not an error), `send_file` calls `send` once, prints
`Done.`, closes the socket and frees the buffer: one byte has gone out, not two. -/
theorem send_file_short_send_reports_done :
    (Client.send_file "127.0.0.1" 8080 "a.txt"
        ⟨true, true, 2, true, [1, 2], some 3, true, true, 1⟩ Client.Resources.init).2
      = [Event.fopen "a.txt" true, Event.malloc 2 true, Event.fread 2 [1, 2],
         Event.fclose (some "a.txt"), Event.socket 3, Event.inet_addr "127.0.0.1" true,
         Event.stdout "client: Connecting to 127.0.0.1:8080...\n",
         Event.connect 3 "127.0.0.1" 8080 true,
         Event.stdout "client: Success!\n",
         Event.stdout "client: Sending: \"a.txt\"...\n",
         Event.send 3 [1, 2] 2 1,
         Event.stdout "client: Done.\n", Event.close 3, Event.free]
    ∧ wire (Client.send_file "127.0.0.1" 8080 "a.txt"
        ⟨true, true, 2, true, [1, 2], some 3, true, true, 1⟩ Client.Resources.init).2 = [1] := by
  decide

end FileTransfer
